import Mathlib

/-!
Shallow embedding of the T-Time ingestion pipeline (`src/mcp/utils.py`,
`src/mcp/reddit/reddit_fetch.py`, `src/mcp/pissedconsumer/pissedconsumer_incremental.py`,
`src/mcp/server.py`, `src/botdas/product_digest_agent/agent.py`).

Modelling conventions:
- Python strings used as text bodies are modelled as `List Char` (Python
  indexes/slices by code point, so `text[:500]` is `List.take 500`).
  Identifiers, platform names and map keys stay `String`.
- `time.time()` float timestamps are modelled as `ℚ` (only ordering,
  equality and copying of timestamps occur in the code).
- The MD5 hash, the sentiment model, the embedding model and the network
  fetchers are external collaborators; they enter as function parameters.
  A call that may raise is modelled as returning `Option`/`Except`.
- A Python `dict` persisted as a JSON object is an association list
  (`List (String × ·)`) with first-match lookup and update-or-append insert.
-/

namespace TTime

/-- `utils.generate_vector_id`: MD5 hash of the combined string
`f"{source_platform}_{source_identifier}"`.  The hash itself is an external
collaborator, passed as `md5`. -/
def generate_vector_id (md5 : String → String) (source_identifier : String)
    (source_platform : String) : String :=
  md5 (source_platform ++ "_" ++ source_identifier)

/-- Result dictionary of `utils.analyze_sentiment`. -/
structure SentimentResult where
  label : String
  score : ℚ
  sentiment_value : ℚ
deriving DecidableEq

/-- The truncation step of `utils.analyze_sentiment`:
`if len(text) > 500: text = text[:500]`. -/
def truncate500 (text : List Char) : List Char :=
  if text.length > 500 then text.take 500 else text

/-- `utils.analyze_sentiment`.  The sentiment pipeline (an external model) is
the parameter `analyzer`, returning the label and confidence score of
`analyzer(text)[0]`.  The code truncates the text to 500 characters, runs the
model, and signs the score by the label. -/
def analyze_sentiment (analyzer : List Char → String × ℚ) (text : List Char) :
    SentimentResult :=
  let t := truncate500 text
  let result := analyzer t
  { label := result.1
    score := result.2
    sentiment_value := if result.1 = "POSITIVE" then result.2 else -result.2 }

/-- `utils.check_if_exists`: walks the id list in batches of 100, asks the
index which ids of the batch exist (`index.fetch`) and accumulates them.
The store is modelled as the list of ids it currently holds, so a batch fetch
returns the members of the batch present in the store. -/
def check_if_exists (store : List String) (vector_ids : List String) :
    List String :=
  match vector_ids with
  | [] => []
  | x :: xs =>
      ((x :: xs).take 100).filter (fun i => store.contains i) ++
        check_if_exists store ((x :: xs).drop 100)
termination_by vector_ids.length
decreasing_by simp; omega

/-- A generic data item as consumed by `utils.process_and_upload_to_pinecone`
(`item['id']`, `item['text']`). -/
structure Item where
  id : String
  text : List Char
deriving DecidableEq

/-- A Pinecone vector dictionary `{'id', 'values', 'metadata'}` built by
`process_and_upload_to_pinecone`.  The metadata produced by the per-scraper
`metadata_creator_func` has abstract type `M`; the `'text'` entry the code
adds to it (`item['text'][:1000]`) is kept as a separate field. -/
structure PVector (M : Type) where
  id : String
  values : List ℚ
  metadata : M
  metadata_text : List Char

/-- The per-item body of the upload loop in `process_and_upload_to_pinecone`:
generate the embedding (may raise → `none`), generate the vector id, run the
metadata creator (may raise → `none`), and attach the truncated text. -/
def build_vector {M : Type} (md5 : String → String)
    (embed : List Char → Option (List ℚ)) (mcf : Item → Option M)
    (source_platform : String) (item : Item) : Option (PVector M) :=
  match embed item.text with
  | none => none
  | some embedding =>
      match mcf item with
      | none => none
      | some metadata =>
          some { id := generate_vector_id md5 item.id source_platform
                 values := embedding
                 metadata := metadata
                 metadata_text := item.text.take 1000 }

/-- The dedup step of `process_and_upload_to_pinecone`: the items whose
generated vector id is not among the ids `check_if_exists` reported. -/
def pu_new_items (md5 : String → String) (store : List String)
    (source_platform : String) (data_items : List Item) : List Item :=
  let vector_ids :=
    data_items.map (fun it => generate_vector_id md5 it.id source_platform)
  let existing_ids := check_if_exists store vector_ids
  data_items.filter
    (fun it => !existing_ids.contains (generate_vector_id md5 it.id source_platform))

/-- `utils.process_and_upload_to_pinecone`.  Returns the function's return
value (number of vectors uploaded) paired with the list of vectors passed to
`upsert_to_pinecone` (`[]` exactly when `upsert_to_pinecone` is never
invoked, i.e. no write happens). -/
def process_and_upload_to_pinecone {M : Type} (md5 : String → String)
    (store : List String) (embed : List Char → Option (List ℚ))
    (mcf : Item → Option M) (source_platform : String)
    (data_items : List Item) : Nat × List (PVector M) :=
  if data_items.isEmpty then (0, [])
  else
    let new_items := pu_new_items md5 store source_platform data_items
    if new_items.isEmpty then (0, [])
    else
      let vectors := new_items.filterMap (build_vector md5 embed mcf source_platform)
      if vectors.isEmpty then (0, []) else (vectors.length, vectors)

/-- The scraper state files (`last_scrape_state.json`): a JSON object mapping
source keys to timestamps. -/
abbrev StateMap := List (String × ℚ)

/-- First-match lookup, as in a Python dict / parsed JSON object. -/
def lookupState : StateMap → String → Option ℚ
  | [], _ => none
  | (k, v) :: rest, key => if k = key then some v else lookupState rest key

/-- `state[key] = v`: update the entry if the key is present, else append. -/
def insertState : StateMap → String → ℚ → StateMap
  | [], key, v => [(key, v)]
  | (k, w) :: rest, key, v =>
      if k = key then (key, v) :: rest
      else (k, w) :: insertState rest key v

/-- The subreddit loop of `RedditIncrementalScraper.run`: for each configured
subreddit (names taken already stripped), read `self.state.get(name)`, fetch
the new items (`scrape_new_posts`, an external collaborator `fetch`), then set
`self.state[name] = current_timestamp`.  Returns the concatenated
`all_data` and the in-memory state after the loop. -/
def redditScan (fetch : String → Option ℚ → List Item) (current : ℚ) :
    List String → StateMap → List Item × StateMap
  | [], st => ([], st)
  | s :: rest, st =>
      let data := fetch s (lookupState st s)
      let r := redditScan fetch current rest (insertState st s current)
      (data ++ r.1, r.2)

/-- Outcome of one scraper run: the checkpoint-file content after the run
(unchanged when no write happened), the uploaded count, whether
`save_state` was invoked, and `total_items_collected`. -/
structure RunResult where
  persisted : StateMap
  uploaded : Nat
  saved : Bool
  collected : Nat
deriving DecidableEq

/-- `RedditIncrementalScraper.run`: capture `current_timestamp` at run start,
scan every subreddit (updating the in-memory state), and only when
`all_data` is non-empty call `process_and_upload_to_pinecone` and
`save_state` (write the whole in-memory state to the checkpoint file). -/
def redditRun {M : Type} (fetch : String → Option ℚ → List Item)
    (subs : List String) (current : ℚ) (state0 : StateMap)
    (md5 : String → String) (store : List String)
    (embed : List Char → Option (List ℚ)) (mcf : Item → Option M) :
    RunResult :=
  let r := redditScan fetch current subs state0
  if r.1.isEmpty then
    { persisted := state0, uploaded := 0, saved := false, collected := 0 }
  else
    { persisted := r.2
      uploaded := (process_and_upload_to_pinecone md5 store embed mcf "reddit" r.1).1
      saved := true
      collected := r.1.length }

/-- `PissedConsumerIncrementalScraper.run`: read
`self.state.get('last_scrape_timestamp')`, scrape (`scrape_new_reviews`,
external collaborator `fetch`), and only when `all_data` is non-empty upload,
set `self.state['last_scrape_timestamp'] = current_timestamp` and write the
checkpoint file. -/
def pcRun {M : Type} (fetch : Option ℚ → List Item) (current : ℚ)
    (state0 : StateMap) (md5 : String → String) (store : List String)
    (embed : List Char → Option (List ℚ)) (mcf : Item → Option M) :
    RunResult :=
  let last := lookupState state0 "last_scrape_timestamp"
  let all_data := fetch last
  if all_data.isEmpty then
    { persisted := state0, uploaded := 0, saved := false, collected := 0 }
  else
    { persisted := insertState state0 "last_scrape_timestamp" current
      uploaded :=
        (process_and_upload_to_pinecone md5 store embed mcf "pissedconsumer" all_data).1
      saved := true
      collected := all_data.length }

/-- A JSON value, as produced by the agent-facing layers. -/
inductive JVal where
  | str : String → JVal
  | num : ℚ → JVal
  | obj : List (String × JVal) → JVal
  | arr : List JVal → JVal

/-- A JSON object (Python dict of JSON values). -/
abbrev JObj := List (String × JVal)

/-- The tool names registered in `server.list_tools` / routed by the
`if`/`elif` chain of `server.call_tool`. -/
def TOOL_NAMES : List String :=
  ["search_sentiment", "get_sentiment_summary", "compare_sentiment",
   "get_trending_topics", "fetch_recent_posts"]

/-- `server.call_tool`: route the call by name to the tool coroutine
(collapsed into `impl`, whose `Except.error` case is a raised exception with
its `str(e)`); an unknown name raises `ValueError(f"Unknown tool: {name}")`.
Every exception is caught by the surrounding `try`, which returns the object
`{"error": str(e), "tool": name, "arguments": arguments}`. -/
def call_tool (impl : String → JObj → Except String JObj) (name : String)
    (arguments : JObj) : JObj :=
  if TOOL_NAMES.contains name then
    match impl name arguments with
    | Except.ok result => result
    | Except.error e =>
        [("error", JVal.str e), ("tool", JVal.str name),
         ("arguments", JVal.obj arguments)]
  else
    [("error", JVal.str ("Unknown tool: " ++ name)), ("tool", JVal.str name),
     ("arguments", JVal.obj arguments)]

/-- One Pinecone match as formatted by
`product_digest_agent.agent.index_pinecone`. -/
structure PineMatch where
  score : ℚ
  text : String
  sentiment_score : ℚ
  sentiment_label : String
  platform : String
  post_type : String
  author : String
  url : String
  date_time : String
  upvotes : ℚ

/-- The per-match dictionary appended to `matches` in `index_pinecone`. -/
def matchToJson (m : PineMatch) : JVal :=
  JVal.obj
    [("score", JVal.num m.score), ("text", JVal.str m.text),
     ("sentiment_score", JVal.num m.sentiment_score),
     ("sentiment_label", JVal.str m.sentiment_label),
     ("platform", JVal.str m.platform), ("post_type", JVal.str m.post_type),
     ("author", JVal.str m.author), ("url", JVal.str m.url),
     ("timestamp", JVal.str m.date_time), ("upvotes", JVal.num m.upvotes)]

/-- `product_digest_agent.agent.index_pinecone`.  Everything inside the `try`
that can raise (embedding, index handle, query) is collapsed into
`queryResult`; on `Except.error e` the `except` branch returns
`{"status": "error", "error_message": f"Error querying Pinecone: {e}"}`.
On success the formatting and sentiment-summary aggregation are pure. -/
def index_pinecone (product_name : String)
    (related_keywords : Option (List String))
    (queryResult : Except String (List PineMatch)) : JObj :=
  let query_text :=
    match related_keywords with
    | some (k :: ks) => product_name ++ " " ++ String.intercalate " " (k :: ks)
    | _ => product_name
  match queryResult with
  | Except.error e =>
      [("status", JVal.str "error"),
       ("error_message", JVal.str ("Error querying Pinecone: " ++ e))]
  | Except.ok ms =>
      let total : ℚ := ms.length
      let pos : ℚ := ms.countP (fun m => m.sentiment_label == "POSITIVE")
      let neg : ℚ := ms.countP (fun m => m.sentiment_label == "NEGATIVE")
      let neu : ℚ := ms.countP (fun m => m.sentiment_label == "NEUTRAL")
      let avg : ℚ :=
        if ms.isEmpty then 0
        else (ms.map (fun m => m.sentiment_score)).sum / total
      let summary : JObj :=
        [("total_posts", JVal.num total), ("positive_count", JVal.num pos),
         ("negative_count", JVal.num neg), ("neutral_count", JVal.num neu),
         ("positive_percentage", JVal.num (if 0 < total then pos / total * 100 else 0)),
         ("negative_percentage", JVal.num (if 0 < total then neg / total * 100 else 0)),
         ("neutral_percentage", JVal.num (if 0 < total then neu / total * 100 else 0)),
         ("average_sentiment_score", JVal.num avg)]
      [("status", JVal.str "success"), ("product", JVal.str product_name),
       ("query", JVal.str query_text), ("count", JVal.num total),
       ("matches", JVal.arr (ms.map matchToJson)),
       ("sentiment_summary", JVal.obj summary)]

/-- `utils.retry_on_failure`'s loop, started at a given attempt index with the
remaining number of attempts.  The function's successive invocations are
modelled by `f : Nat → Except String α` (attempt `i` returns `f i`; `error`
is a raised exception).  Returns the result (`none` when the loop fell
through with every attempt failing) and the next unused attempt index, i.e.
the total number of invocations when started at 0. -/
def retryFrom (f : Nat → Except String α) : Nat → Nat → Option α × Nat
  | attempt, 0 => (none, attempt)
  | attempt, n + 1 =>
      match f attempt with
      | Except.ok a => (some a, attempt + 1)
      | Except.error _ => retryFrom f (attempt + 1) n

/-- `utils.retry_on_failure(func, max_retries, delay)`: run
`for attempt in range(max_retries)`, returning the first successful result,
or `None` after the last failure (the delay is ignored in the model). -/
def retry_on_failure (f : Nat → Except String α) (max_retries : Nat) :
    Option α × Nat :=
  retryFrom f 0 max_retries

/-! ### Helper lemmas -/

/-- Batched existence checking equals a single filter over the whole id
list: `check_if_exists` returns exactly the ids present in the store. -/
theorem check_if_exists_eq_filter (store : List String) :
    ∀ (ids : List String),
      check_if_exists store ids = ids.filter (fun i => store.contains i) := by
  have key : ∀ (n : Nat) (ids : List String), ids.length ≤ n →
      check_if_exists store ids = ids.filter (fun i => store.contains i) := by
    intro n
    induction n with
    | zero =>
        intro ids h
        have : ids = [] := List.eq_nil_of_length_eq_zero (Nat.le_zero.mp h)
        subst this
        simp [check_if_exists]
    | succ n ih =>
        intro ids h
        match ids with
        | [] => simp [check_if_exists]
        | x :: xs =>
            rw [check_if_exists]
            rw [ih ((x :: xs).drop 100) (by simp at h ⊢; omega)]
            rw [← List.filter_append, List.take_append_drop]
  intro ids
  exact key ids.length ids (le_refl _)

theorem lookupState_insertState_self (st : StateMap) (key : String) (v : ℚ) :
    lookupState (insertState st key v) key = some v := by
  induction st with
  | nil => simp [insertState, lookupState]
  | cons p rest ih =>
      obtain ⟨k, w⟩ := p
      by_cases h : k = key
      · simp [insertState, h, lookupState]
      · simp [insertState, h, lookupState, ih]

theorem lookupState_insertState_ne (st : StateMap) (key k' : String) (v : ℚ)
    (h : k' ≠ key) :
    lookupState (insertState st key v) k' = lookupState st k' := by
  induction st with
  | nil => simp [insertState, lookupState, Ne.symm h]
  | cons p rest ih =>
      obtain ⟨k, w⟩ := p
      by_cases hk : k = key
      · subst hk
        simp [insertState, lookupState, Ne.symm h]
      · simp only [insertState, if_neg hk]
        by_cases hk' : k = k'
        · subst hk'
          simp [lookupState]
        · simp [lookupState, hk', ih]

/-- After the subreddit loop, every key not among the scanned subreddits has
its original value in the in-memory state. -/
theorem redditScan_lookup_not_mem (fetch : String → Option ℚ → List Item)
    (current : ℚ) :
    ∀ (subs : List String) (st : StateMap) (k : String), k ∉ subs →
      lookupState (redditScan fetch current subs st).2 k = lookupState st k := by
  intro subs
  induction subs with
  | nil => intro st k _; rfl
  | cons s rest ih =>
      intro st k hk
      have hks : k ≠ s := fun h => hk (h ▸ List.mem_cons_self s rest)
      have hkr : k ∉ rest := fun h => hk (List.mem_cons_of_mem s h)
      show lookupState (redditScan fetch current rest (insertState st s current)).2 k = _
      rw [ih _ k hkr, lookupState_insertState_ne _ _ _ _ hks]

/-- After the subreddit loop, every scanned subreddit's key maps to the
run-start timestamp in the in-memory state. -/
theorem redditScan_lookup_mem (fetch : String → Option ℚ → List Item)
    (current : ℚ) :
    ∀ (subs : List String) (st : StateMap) (k : String), k ∈ subs →
      lookupState (redditScan fetch current subs st).2 k = some current := by
  intro subs
  induction subs with
  | nil => intro st k hk; exact absurd hk (List.not_mem_nil k)
  | cons s rest ih =>
      intro st k hk
      by_cases hkr : k ∈ rest
      · exact ih _ k hkr
      · have hks : k = s := by
          rcases List.mem_cons.mp hk with h | h
          · exact h
          · exact absurd h hkr
        subst hks
        show lookupState (redditScan fetch current rest (insertState st k current)).2 k = _
        rw [redditScan_lookup_not_mem fetch current rest _ k hkr,
          lookupState_insertState_self]

/-- Loop counter bound for `retryFrom`: starting at `start` with `n`
remaining attempts, at most `start + n` invocations happen in total. -/
theorem retryFrom_calls_le {α : Type} (f : Nat → Except String α) :
    ∀ (n start : Nat), (retryFrom f start n).2 ≤ start + n := by
  intro n
  induction n with
  | zero => intro start; simp [retryFrom]
  | succ n ih =>
      intro start
      cases h : f start with
      | ok a =>
          simp only [retryFrom, h]
          omega
      | error e =>
          have := ih (start + 1)
          simp only [retryFrom, h]
          omega

/-- A successful `retryFrom` result comes from the first succeeding attempt
in the scanned window; all earlier scanned attempts failed. -/
theorem retryFrom_some {α : Type} (f : Nat → Except String α) :
    ∀ (n start : Nat) (a : α), (retryFrom f start n).1 = some a →
      ∃ k, start ≤ k ∧ k < start + n ∧ f k = Except.ok a ∧
        ∀ j, start ≤ j → j < k → ∃ e, f j = Except.error e := by
  intro n
  induction n with
  | zero => intro start a h; simp [retryFrom] at h
  | succ n ih =>
      intro start a h
      cases hf : f start with
      | ok b =>
          have hb : b = a := by simpa [retryFrom, hf] using h
          subst hb
          exact ⟨start, le_refl _, by omega, hf, fun j hj1 hj2 => by omega⟩
      | error e =>
          have h' : (retryFrom f (start + 1) n).1 = some a := by
            simpa [retryFrom, hf] using h
          obtain ⟨k, hk1, hk2, hk3, hk4⟩ := ih (start + 1) a h'
          refine ⟨k, by omega, by omega, hk3, ?_⟩
          intro j hj1 hj2
          rcases Nat.eq_or_lt_of_le hj1 with heq | hlt
          · exact ⟨e, heq ▸ hf⟩
          · exact hk4 j hlt hj2

/-- When every scanned attempt fails, `retryFrom` returns `none`. -/
theorem retryFrom_none {α : Type} (f : Nat → Except String α) :
    ∀ (n start : Nat),
      (∀ k, start ≤ k → k < start + n → ∃ e, f k = Except.error e) →
      (retryFrom f start n).1 = none := by
  intro n
  induction n with
  | zero => intro start _; simp [retryFrom]
  | succ n ih =>
      intro start h
      obtain ⟨e, he⟩ := h start (le_refl _) (by omega)
      have := ih (start + 1) (fun k hk1 hk2 => h k (by omega) (by omega))
      simpa [retryFrom, he] using this

/-! ### Claim theorems -/

/-- C1: `generate_vector_id` is deterministic — it is the pure MD5 hash of
the combined string `f"{platform}_{source_id}"`, with no other input — and,
assuming MD5 is injective on the two (distinct) combined strings it is
given, the same source identifier on two distinct platforms yields two
different IDs. -/
theorem C1_vector_id_deterministic_and_platform_distinct
    (md5 : String → String) (sid p1 p2 : String)
    (hinj : md5 (p1 ++ "_" ++ sid) = md5 (p2 ++ "_" ++ sid) →
      p1 ++ "_" ++ sid = p2 ++ "_" ++ sid)
    (hne : p1 ≠ p2) :
    generate_vector_id md5 sid p1 = md5 (p1 ++ "_" ++ sid) ∧
    generate_vector_id md5 sid p1 ≠ generate_vector_id md5 sid p2 := by
  refine ⟨rfl, fun h => hne ?_⟩
  have hc := hinj h
  have hd := congrArg String.data hc
  simp only [String.data_append, List.append_cancel_right_eq] at hd
  exact String.ext hd

/-- Witness for C1 at `md5 := id`, source id `"123"`, platforms `"reddit"`
and `"pissedconsumer"`. -/
theorem C1_vector_id_witness :
    generate_vector_id (fun s => s) "123" "reddit" =
      (fun s : String => s) ("reddit" ++ "_" ++ "123") ∧
    generate_vector_id (fun s => s) "123" "reddit" ≠
      generate_vector_id (fun s => s) "123" "pissedconsumer" :=
  C1_vector_id_deterministic_and_platform_distinct (fun s => s) "123"
    "reddit" "pissedconsumer" (fun h => h) (by decide)

/-- C6: given that the model's confidence score lies in `[0,1]`,
`analyze_sentiment` returns `sentiment_value` equal to the confidence on a
POSITIVE label and the negated confidence on a NEGATIVE label, so the value
is nonnegative for POSITIVE and nonpositive for NEGATIVE. -/
theorem C6_sentiment_value_sign_matches_label
    (analyzer : List Char → String × ℚ) (text : List Char)
    (hconf : 0 ≤ (analyzer (truncate500 text)).2 ∧
      (analyzer (truncate500 text)).2 ≤ 1) :
    ((analyze_sentiment analyzer text).label = "POSITIVE" →
      (analyze_sentiment analyzer text).sentiment_value =
        (analyze_sentiment analyzer text).score) ∧
    ((analyze_sentiment analyzer text).label = "NEGATIVE" →
      (analyze_sentiment analyzer text).sentiment_value =
        -(analyze_sentiment analyzer text).score) ∧
    ((analyze_sentiment analyzer text).label = "POSITIVE" →
      0 ≤ (analyze_sentiment analyzer text).sentiment_value) ∧
    ((analyze_sentiment analyzer text).label = "NEGATIVE" →
      (analyze_sentiment analyzer text).sentiment_value ≤ 0) := by
  by_cases hp : (analyzer (truncate500 text)).1 = "POSITIVE"
  · refine ⟨fun _ => ?_, fun hneg => ?_, fun _ => ?_, fun hneg => ?_⟩
    · simp [analyze_sentiment, hp]
    · exfalso
      simp [analyze_sentiment, hp] at hneg
    · simpa [analyze_sentiment, hp] using hconf.1
    · exfalso
      simp [analyze_sentiment, hp] at hneg
  · refine ⟨fun hpos => ?_, fun _ => ?_, fun hpos => ?_, fun _ => ?_⟩
    · exact absurd (by simpa [analyze_sentiment] using hpos) hp
    · simp [analyze_sentiment, hp]
    · exact absurd (by simpa [analyze_sentiment] using hpos) hp
    · have : (analyze_sentiment analyzer text).sentiment_value =
        -(analyzer (truncate500 text)).2 := by simp [analyze_sentiment, hp]
      rw [this]
      exact neg_nonpos.mpr hconf.1

/-- Witness for C6 at a constant analyzer returning
`("POSITIVE", 1/2)` on the text `"ok"`. -/
theorem C6_sentiment_sign_witness :
    (0 ≤ ((fun _ : List Char => ("POSITIVE", (1 : ℚ)/2))
        (truncate500 ['o', 'k'])).2 ∧
      ((fun _ : List Char => ("POSITIVE", (1 : ℚ)/2))
        (truncate500 ['o', 'k'])).2 ≤ 1) ∧
    ((analyze_sentiment (fun _ => ("POSITIVE", (1 : ℚ)/2)) ['o', 'k']).label =
        "POSITIVE" →
      (analyze_sentiment (fun _ => ("POSITIVE", (1 : ℚ)/2))
          ['o', 'k']).sentiment_value =
        (analyze_sentiment (fun _ => ("POSITIVE", (1 : ℚ)/2)) ['o', 'k']).score) := by
  have h : (0 ≤ ((fun _ : List Char => ("POSITIVE", (1 : ℚ)/2))
        (truncate500 ['o', 'k'])).2 ∧
      ((fun _ : List Char => ("POSITIVE", (1 : ℚ)/2))
        (truncate500 ['o', 'k'])).2 ≤ 1) := by norm_num
  exact ⟨h, (C6_sentiment_value_sign_matches_label
    (fun _ => ("POSITIVE", (1 : ℚ)/2)) ['o', 'k'] h).1⟩

/-- C7: `analyze_sentiment` never rejects oversized input — text longer than
500 characters is truncated to its first 500 characters before being passed
to the model, so the result on any text equals the result on the first 500
characters of that text. -/
theorem C7_sentiment_truncates_oversized_input
    (analyzer : List Char → String × ℚ) (text : List Char) :
    (text.length > 500 → truncate500 text = text.take 500) ∧
    analyze_sentiment analyzer text =
      analyze_sentiment analyzer (text.take 500) := by
  constructor
  · intro h
    simp [truncate500, h]
  · have htr : truncate500 text = truncate500 (text.take 500) := by
      by_cases h : text.length > 500
      · have hlen : (text.take 500).length = 500 := by
          rw [List.length_take]
          omega
        simp [truncate500, h, hlen]
      · have hle : text.length ≤ 500 := by omega
        rw [List.take_of_length_le hle]
    unfold analyze_sentiment
    rw [htr]

/-- Witness for C7 on a 501-character text. -/
theorem C7_sentiment_truncation_witness :
    ((List.replicate 501 'a').length > 500 →
      truncate500 (List.replicate 501 'a') = (List.replicate 501 'a').take 500) ∧
    analyze_sentiment (fun _ => ("NEGATIVE", (1 : ℚ))) (List.replicate 501 'a') =
      analyze_sentiment (fun _ => ("NEGATIVE", (1 : ℚ)))
        ((List.replicate 501 'a').take 500) :=
  C7_sentiment_truncates_oversized_input (fun _ => ("NEGATIVE", (1 : ℚ)))
    (List.replicate 501 'a')

/-- C10: `retry_on_failure` invokes the function at most `max_retries`
times, returns the first successful result unchanged, and returns `None`
(never re-raises) when every attempt raises. -/
theorem C10_retry_on_failure_contract {α : Type}
    (f : Nat → Except String α) (max_retries : Nat) :
    (retry_on_failure f max_retries).2 ≤ max_retries ∧
    (∀ a, (retry_on_failure f max_retries).1 = some a →
      ∃ k, k < max_retries ∧ f k = Except.ok a ∧
        ∀ j, j < k → ∃ e, f j = Except.error e) ∧
    ((∀ k, k < max_retries → ∃ e, f k = Except.error e) →
      (retry_on_failure f max_retries).1 = none) := by
  refine ⟨?_, ?_, ?_⟩
  · have := retryFrom_calls_le f max_retries 0
    simpa [retry_on_failure] using this
  · intro a h
    obtain ⟨k, _, hk2, hk3, hk4⟩ := retryFrom_some f max_retries 0 a h
    exact ⟨k, by omega, hk3, fun j hj => hk4 j (Nat.zero_le j) hj⟩
  · intro h
    exact retryFrom_none f max_retries 0 (fun k _ hk => h k (by omega))

/-- Witness for C10: first attempt raises, second succeeds with 7,
`max_retries = 3`. -/
theorem C10_retry_witness :
    (retry_on_failure
        (fun i => if i = 0 then Except.error "boom" else Except.ok 7) 3).2 ≤ 3 ∧
    (∀ a, (retry_on_failure
        (fun i => if i = 0 then Except.error "boom" else Except.ok 7) 3).1 =
          some a →
      ∃ k, k < 3 ∧
        (fun i => if i = 0 then Except.error "boom" else Except.ok 7) k =
          Except.ok a ∧
        ∀ j, j < k → ∃ e,
          (fun i => if i = 0 then Except.error "boom" else Except.ok 7) j =
            Except.error e) ∧
    ((∀ k, k < 3 → ∃ e,
        (fun i => if i = 0 then Except.error "boom" else Except.ok 7) k =
          Except.error e) →
      (retry_on_failure
        (fun i => if i = 0 then Except.error "boom" else Except.ok 7) 3).1 =
          none) :=
  C10_retry_on_failure_contract
    (fun i => if i = 0 then Except.error "boom" else Except.ok (7 : Nat)) 3

/-- Existence checking agrees with direct store membership for ids generated
from the input items. -/
theorem check_contains_generated (md5 : String → String) (store : List String)
    (platform : String) (items : List Item) (it : Item) (hit : it ∈ items) :
    (check_if_exists store
        (items.map (fun x => generate_vector_id md5 x.id platform))).contains
      (generate_vector_id md5 it.id platform) =
    store.contains (generate_vector_id md5 it.id platform) := by
  rw [check_if_exists_eq_filter]
  cases hs : store.contains (generate_vector_id md5 it.id platform) with
  | true =>
      have : generate_vector_id md5 it.id platform ∈
          (items.map (fun x => generate_vector_id md5 x.id platform)).filter
            (fun i => store.contains i) :=
        List.mem_filter.mpr
          ⟨List.mem_map_of_mem (fun x => generate_vector_id md5 x.id platform) hit,
            hs⟩
      simpa using this
  | false =>
      have : generate_vector_id md5 it.id platform ∉
          (items.map (fun x => generate_vector_id md5 x.id platform)).filter
            (fun i => store.contains i) := by
        intro hmem
        have h2 := (List.mem_filter.mp hmem).2
        rw [hs] at h2
        exact Bool.false_ne_true h2
      simpa using this

/-- The dedup step keeps exactly the items whose generated id is not in the
store. -/
theorem pu_new_items_eq_filter (md5 : String → String) (store : List String)
    (platform : String) (items : List Item) :
    pu_new_items md5 store platform items =
      items.filter
        (fun it => !store.contains (generate_vector_id md5 it.id platform)) := by
  unfold pu_new_items
  apply List.filter_congr
  intro it hit
  rw [check_contains_generated md5 store platform items it hit]

/-- C5: with pairwise-distinct generated vector IDs and an existence check
returning exactly the ids present in the store, the items that proceed to
enrichment and upload are exactly the input items whose ID is absent from
the store, and the new-item count is the input count minus the existing
count. -/
theorem C5_dedup_exact_and_counts
    (md5 : String → String) (store : List String) (platform : String)
    (items : List Item)
    (_hnodup : (items.map (fun it => generate_vector_id md5 it.id platform)).Nodup) :
    pu_new_items md5 store platform items =
      items.filter
        (fun it => !store.contains (generate_vector_id md5 it.id platform)) ∧
    (pu_new_items md5 store platform items).length =
      items.length -
        (check_if_exists store
          (items.map (fun it => generate_vector_id md5 it.id platform))).length := by
  refine ⟨pu_new_items_eq_filter md5 store platform items, ?_⟩
  rw [pu_new_items_eq_filter md5 store platform items,
    check_if_exists_eq_filter]
  have hmaps :
      (items.filter
        (fun it => !store.contains (generate_vector_id md5 it.id platform))).length =
      ((items.map (fun it => generate_vector_id md5 it.id platform)).filter
        (fun i => !store.contains i)).length := by
    rw [List.filter_map (fun it => generate_vector_id md5 it.id platform) items,
      List.length_map]
    rfl
  rw [hmaps]
  have hsplit := List.length_eq_length_filter_add
    (l := items.map (fun it => generate_vector_id md5 it.id platform))
    (fun i => store.contains i)
  rw [List.length_map] at hsplit
  omega

/-- Witness for C5: one item already in the store, one not. -/
theorem C5_dedup_witness :
    (([⟨"a", ['x']⟩, ⟨"b", ['y']⟩] : List Item).map
        (fun it => generate_vector_id (fun s => s) it.id "reddit")).Nodup ∧
    pu_new_items (fun s => s) ["reddit_a"] "reddit"
        [⟨"a", ['x']⟩, ⟨"b", ['y']⟩] =
      ([⟨"a", ['x']⟩, ⟨"b", ['y']⟩] : List Item).filter
        (fun it =>
          !(["reddit_a"] : List String).contains
            (generate_vector_id (fun s => s) it.id "reddit")) := by
  have hnd : (([⟨"a", ['x']⟩, ⟨"b", ['y']⟩] : List Item).map
      (fun it => generate_vector_id (fun s => s) it.id "reddit")).Nodup := by
    simp [generate_vector_id]
  exact ⟨hnd, (C5_dedup_exact_and_counts (fun s => s) ["reddit_a"] "reddit"
    [⟨"a", ['x']⟩, ⟨"b", ['y']⟩] hnd).1⟩

/-- Items reaching the upload loop come from the input list. -/
theorem pu_new_items_subset (md5 : String → String) (store : List String)
    (platform : String) (items : List Item) (it : Item)
    (h : it ∈ pu_new_items md5 store platform items) : it ∈ items := by
  rw [pu_new_items_eq_filter] at h
  exact (List.mem_filter.mp h).1

/-- C9: `process_and_upload_to_pinecone` performs no write and returns 0 on
an empty input, when every input item's generated ID already exists in the
store, and when every new (post-dedup) item fails embedding/metadata
creation; `upsert` is invoked only when at least one vector was
successfully built. -/
theorem C9_no_write_paths {M : Type} (md5 : String → String)
    (store : List String) (embed : List Char → Option (List ℚ))
    (mcf : Item → Option M) (platform : String) (items : List Item) :
    process_and_upload_to_pinecone md5 store embed mcf platform [] = (0, []) ∧
    ((∀ it ∈ items,
        store.contains (generate_vector_id md5 it.id platform) = true) →
      process_and_upload_to_pinecone md5 store embed mcf platform items =
        (0, [])) ∧
    ((∀ it ∈ pu_new_items md5 store platform items,
        build_vector md5 embed mcf platform it = none) →
      process_and_upload_to_pinecone md5 store embed mcf platform items =
        (0, [])) ∧
    ((process_and_upload_to_pinecone md5 store embed mcf platform items).2 ≠ [] →
      ∃ it ∈ items, build_vector md5 embed mcf platform it ≠ none) := by
  refine ⟨rfl, ?_, ?_, ?_⟩
  · intro hall
    have hnew : pu_new_items md5 store platform items = [] := by
      rw [pu_new_items_eq_filter]
      apply List.filter_eq_nil_iff.mpr
      intro it hit
      rw [hall it hit]
      decide
    unfold process_and_upload_to_pinecone
    by_cases hempty : items.isEmpty <;> simp [hempty, hnew]
  · intro hall
    have hvec : (pu_new_items md5 store platform items).filterMap
        (build_vector md5 embed mcf platform) = [] :=
      List.filterMap_eq_nil_iff.mpr hall
    unfold process_and_upload_to_pinecone
    by_cases hempty : items.isEmpty
    · simp [hempty]
    · by_cases hnew : (pu_new_items md5 store platform items).isEmpty <;>
        simp [hempty, hnew, hvec]
  · intro hne
    have hsub : ∀ v ∈ (process_and_upload_to_pinecone md5 store embed mcf
        platform items).2,
        ∃ it ∈ pu_new_items md5 store platform items,
          build_vector md5 embed mcf platform it = some v := by
      intro v hv
      unfold process_and_upload_to_pinecone at hv
      by_cases hempty : items.isEmpty
      · simp [hempty] at hv
      · by_cases hnew : (pu_new_items md5 store platform items).isEmpty
        · simp [hempty, hnew] at hv
        · by_cases hvecs : ((pu_new_items md5 store platform items).filterMap
              (build_vector md5 embed mcf platform)).isEmpty
          · simp [hempty, hnew, hvecs] at hv
          · simp only [hempty, hnew, hvecs, if_neg, Bool.false_eq_true,
              if_false] at hv
            exact List.mem_filterMap.mp hv
    obtain ⟨v, hv⟩ := List.exists_mem_of_ne_nil _ hne
    obtain ⟨it, hit, hbuild⟩ := hsub v hv
    exact ⟨it, pu_new_items_subset md5 store platform items it hit,
      fun hnone => by rw [hnone] at hbuild; exact Option.noConfusion hbuild⟩

/-- Witness for C9: a store that already contains the single item's id, so
the run writes nothing. -/
theorem C9_no_write_witness :
    (∀ it ∈ ([⟨"a", ['x']⟩] : List Item),
      (["reddit_a"] : List String).contains
        (generate_vector_id (fun s => s) it.id "reddit") = true) ∧
    process_and_upload_to_pinecone (fun s => s) ["reddit_a"]
        (fun _ => some [1]) (fun _ => some (0 : Nat)) "reddit"
        [⟨"a", ['x']⟩] = (0, []) := by
  have hall : ∀ it ∈ ([⟨"a", ['x']⟩] : List Item),
      (["reddit_a"] : List String).contains
        (generate_vector_id (fun s => s) it.id "reddit") = true := by
    intro it hit
    simp at hit
    subst hit
    simp [generate_vector_id]
  exact ⟨hall, (C9_no_write_paths (fun s => s) ["reddit_a"]
    (fun _ => some [1]) (fun _ => some (0 : Nat)) "reddit"
    [⟨"a", ['x']⟩]).2.1 hall⟩

/-- Branch characterization of `redditRun` (definitional). -/
theorem redditRun_eq {M : Type} (fetch : String → Option ℚ → List Item)
    (subs : List String) (current : ℚ) (state0 : StateMap)
    (md5 : String → String) (store : List String)
    (embed : List Char → Option (List ℚ)) (mcf : Item → Option M) :
    redditRun fetch subs current state0 md5 store embed mcf =
      if (redditScan fetch current subs state0).1.isEmpty then
        { persisted := state0, uploaded := 0, saved := false, collected := 0 }
      else
        { persisted := (redditScan fetch current subs state0).2
          uploaded := (process_and_upload_to_pinecone md5 store embed mcf
            "reddit" (redditScan fetch current subs state0).1).1
          saved := true
          collected := (redditScan fetch current subs state0).1.length } := rfl

/-- Branch characterization of `pcRun` (definitional). -/
theorem pcRun_eq {M : Type} (fetch : Option ℚ → List Item) (current : ℚ)
    (state0 : StateMap) (md5 : String → String) (store : List String)
    (embed : List Char → Option (List ℚ)) (mcf : Item → Option M) :
    pcRun fetch current state0 md5 store embed mcf =
      if (fetch (lookupState state0 "last_scrape_timestamp")).isEmpty then
        { persisted := state0, uploaded := 0, saved := false, collected := 0 }
      else
        { persisted := insertState state0 "last_scrape_timestamp" current
          uploaded := (process_and_upload_to_pinecone md5 store embed mcf
            "pissedconsumer"
            (fetch (lookupState state0 "last_scrape_timestamp"))).1
          saved := true
          collected :=
            (fetch (lookupState state0 "last_scrape_timestamp")).length } := rfl

/-- C2 counterexample: a Reddit run that collects one item whose vector ID
already exists in the store uploads zero items yet still writes the
checkpoint file — refuting "written only if the run produced and uploaded
at least one item". -/
theorem C2_checkpoint_written_without_upload_counterexample :
    (redditRun (fun _ _ => [⟨"x1", ['h', 'i']⟩]) ["tmobile"] 100 []
      (fun s => s) ["reddit_x1"] (fun _ => some [1])
      (fun _ => some (0 : Nat))).saved = true ∧
    (redditRun (fun _ _ => [⟨"x1", ['h', 'i']⟩]) ["tmobile"] 100 []
      (fun s => s) ["reddit_x1"] (fun _ => some [1])
      (fun _ => some (0 : Nat))).uploaded = 0 := by
  rw [redditRun_eq]
  simp [redditScan, process_and_upload_to_pinecone, pu_new_items,
    check_if_exists_eq_filter, generate_vector_id, lookupState, insertState]

/-- C2 amended: the checkpoint file is written at run end iff the run
collected at least one item (an upload is then attempted, though it may
upload zero vectors when every item already exists), and every source key
the run touches is written with the single run-start timestamp. -/
theorem C2_amended_checkpoint_write_policy {M M' : Type}
    (fetch : String → Option ℚ → List Item) (subs : List String)
    (fetch2 : Option ℚ → List Item) (current : ℚ) (state0 : StateMap)
    (md5 : String → String) (store : List String)
    (embed : List Char → Option (List ℚ)) (mcf : Item → Option M)
    (mcf2 : Item → Option M') :
    ((redditRun fetch subs current state0 md5 store embed mcf).saved = true ↔
      (redditScan fetch current subs state0).1 ≠ []) ∧
    ((redditRun fetch subs current state0 md5 store embed mcf).saved = true →
      ∀ s ∈ subs,
        lookupState
          (redditRun fetch subs current state0 md5 store embed mcf).persisted
          s = some current) ∧
    ((pcRun fetch2 current state0 md5 store embed mcf2).saved = true ↔
      fetch2 (lookupState state0 "last_scrape_timestamp") ≠ []) ∧
    ((pcRun fetch2 current state0 md5 store embed mcf2).saved = true →
      lookupState
        (pcRun fetch2 current state0 md5 store embed mcf2).persisted
        "last_scrape_timestamp" = some current) := by
  rw [redditRun_eq, pcRun_eq]
  refine ⟨?_, ?_, ?_, ?_⟩
  · by_cases h : (redditScan fetch current subs state0).1.isEmpty
    · rw [if_pos h]
      simp [List.isEmpty_iff.mp h]
    · rw [if_neg h]
      have hne : (redditScan fetch current subs state0).1 ≠ [] :=
        fun heq => h (by simp [heq])
      simp [hne]
  · intro hsaved s hs
    by_cases h : (redditScan fetch current subs state0).1.isEmpty
    · rw [if_pos h] at hsaved
      simp at hsaved
    · simp only [h, Bool.false_eq_true, if_false]
      exact redditScan_lookup_mem fetch current subs state0 s hs
  · by_cases h : (fetch2 (lookupState state0 "last_scrape_timestamp")).isEmpty
    · rw [if_pos h]
      simp [List.isEmpty_iff.mp h]
    · rw [if_neg h]
      have hne : fetch2 (lookupState state0 "last_scrape_timestamp") ≠ [] :=
        fun heq => h (by simp [heq])
      simp [hne]
  · intro hsaved
    by_cases h : (fetch2 (lookupState state0 "last_scrape_timestamp")).isEmpty
    · rw [if_pos h] at hsaved
      simp at hsaved
    · simp only [h, Bool.false_eq_true, if_false]
      exact lookupState_insertState_self state0 "last_scrape_timestamp" current

/-- C3 counterexample: a Reddit run that collects zero items does not write
the checkpoint file at all — the persisted value for the subreddit keeps its
old timestamp 50 instead of being advanced to the run-start time 100. -/
theorem C3_empty_run_counterexample :
    (redditRun (fun _ _ => []) ["tmobile"] 100 [("tmobile", 50)]
      (fun s => s) [] (fun _ => some [1]) (fun _ => some (0 : Nat))).saved =
        false ∧
    lookupState
      (redditRun (fun _ _ => []) ["tmobile"] 100 [("tmobile", 50)]
        (fun s => s) [] (fun _ => some [1])
        (fun _ => some (0 : Nat))).persisted "tmobile" = some 50 := by
  rw [redditRun_eq]
  simp [redditScan, lookupState, insertState]

/-- C3 amended: when zero items are collected the checkpoint file is not
written and keeps its previous contents; when at least one item is
collected, every scanned subreddit key — and the PissedConsumer single key —
is set to the run-start time, regardless of whether any collected item was
new to the store. -/
theorem C3_amended_empty_window_checkpoint_policy {M M' : Type}
    (fetch : String → Option ℚ → List Item) (subs : List String)
    (fetch2 : Option ℚ → List Item) (current : ℚ) (state0 : StateMap)
    (md5 : String → String) (store : List String)
    (embed : List Char → Option (List ℚ)) (mcf : Item → Option M)
    (mcf2 : Item → Option M') :
    ((redditScan fetch current subs state0).1 = [] →
      (redditRun fetch subs current state0 md5 store embed mcf).saved = false ∧
      (redditRun fetch subs current state0 md5 store embed mcf).persisted =
        state0) ∧
    ((redditScan fetch current subs state0).1 ≠ [] →
      ∀ s ∈ subs,
        lookupState
          (redditRun fetch subs current state0 md5 store embed mcf).persisted
          s = some current) ∧
    (fetch2 (lookupState state0 "last_scrape_timestamp") = [] →
      (pcRun fetch2 current state0 md5 store embed mcf2).saved = false ∧
      (pcRun fetch2 current state0 md5 store embed mcf2).persisted = state0) ∧
    (fetch2 (lookupState state0 "last_scrape_timestamp") ≠ [] →
      lookupState
        (pcRun fetch2 current state0 md5 store embed mcf2).persisted
        "last_scrape_timestamp" = some current) := by
  refine ⟨?_, ?_, ?_, ?_⟩
  · intro hnil
    rw [redditRun_eq, if_pos (List.isEmpty_iff.mpr hnil)]
    exact ⟨rfl, rfl⟩
  · intro hne s hs
    have h : ¬(redditScan fetch current subs state0).1.isEmpty :=
      fun h => hne (List.isEmpty_iff.mp h)
    rw [redditRun_eq, if_neg h]
    exact redditScan_lookup_mem fetch current subs state0 s hs
  · intro hnil
    rw [pcRun_eq, if_pos (List.isEmpty_iff.mpr hnil)]
    exact ⟨rfl, rfl⟩
  · intro hne
    have h : ¬(fetch2 (lookupState state0 "last_scrape_timestamp")).isEmpty :=
      fun h => hne (List.isEmpty_iff.mp h)
    rw [pcRun_eq, if_neg h]
    exact lookupState_insertState_self state0 "last_scrape_timestamp" current

/-- C4: assuming the stored checkpoint value for a source key before the run
is at most the run-start time, the persisted value for that key after the
run is at least its value before the run — each run leaves the key unchanged
or sets it to the run-start time — for both incremental scrapers. -/
theorem C4_checkpoint_never_regresses {M M' : Type}
    (fetch : String → Option ℚ → List Item) (subs : List String)
    (fetch2 : Option ℚ → List Item) (current : ℚ) (state0 : StateMap)
    (md5 : String → String) (store : List String)
    (embed : List Char → Option (List ℚ)) (mcf : Item → Option M)
    (mcf2 : Item → Option M') (k : String) (v0 : ℚ)
    (hbefore : lookupState state0 k = some v0) (hle : v0 ≤ current) :
    (∃ v1, lookupState
        (redditRun fetch subs current state0 md5 store embed mcf).persisted k =
          some v1 ∧ v0 ≤ v1) ∧
    (∃ v2, lookupState
        (pcRun fetch2 current state0 md5 store embed mcf2).persisted k =
          some v2 ∧ v0 ≤ v2) := by
  constructor
  · rw [redditRun_eq]
    by_cases h : (redditScan fetch current subs state0).1.isEmpty
    · rw [if_pos h]
      exact ⟨v0, hbefore, le_refl v0⟩
    · rw [if_neg h]
      by_cases hk : k ∈ subs
      · exact ⟨current, redditScan_lookup_mem fetch current subs state0 k hk,
          hle⟩
      · refine ⟨v0, ?_, le_refl v0⟩
        show lookupState (redditScan fetch current subs state0).2 k = some v0
        rw [redditScan_lookup_not_mem fetch current subs state0 k hk]
        exact hbefore
  · rw [pcRun_eq]
    by_cases h : (fetch2 (lookupState state0 "last_scrape_timestamp")).isEmpty
    · rw [if_pos h]
      exact ⟨v0, hbefore, le_refl v0⟩
    · rw [if_neg h]
      by_cases hk : k = "last_scrape_timestamp"
      · subst hk
        exact ⟨current,
          lookupState_insertState_self state0 "last_scrape_timestamp" current,
          hle⟩
      · refine ⟨v0, ?_, le_refl v0⟩
        show lookupState
          (insertState state0 "last_scrape_timestamp" current) k = some v0
        rw [lookupState_insertState_ne state0 "last_scrape_timestamp" k
          current hk]
        exact hbefore

/-- Concrete one-item Reddit fetcher for witnesses. -/
def wFetchR : String → Option ℚ → List Item := fun _ _ => [⟨"i1", ['t']⟩]

/-- Concrete one-review PissedConsumer fetcher for witnesses. -/
def wFetchP : Option ℚ → List Item := fun _ => [⟨"r1", ['t']⟩]

/-- Concrete embedding stub for witnesses. -/
def wEmbed : List Char → Option (List ℚ) := fun _ => some [1]

/-- Concrete metadata-creator stub for witnesses. -/
def wMcf : Item → Option Nat := fun _ => some 0

/-- Concrete hash stub (the identity) for witnesses. -/
def wMd5 : String → String := fun s => s

/-- Witness for the amended C2 on a one-subreddit, one-item run. -/
theorem C2_amended_checkpoint_write_witness :
    ((redditRun wFetchR ["a"] 5 [] wMd5 [] wEmbed wMcf).saved = true ↔
      (redditScan wFetchR 5 ["a"] []).1 ≠ []) ∧
    ((redditRun wFetchR ["a"] 5 [] wMd5 [] wEmbed wMcf).saved = true →
      ∀ s ∈ ["a"],
        lookupState (redditRun wFetchR ["a"] 5 [] wMd5 [] wEmbed wMcf).persisted
          s = some 5) ∧
    ((pcRun wFetchP 5 [] wMd5 [] wEmbed wMcf).saved = true ↔
      wFetchP (lookupState [] "last_scrape_timestamp") ≠ []) ∧
    ((pcRun wFetchP 5 [] wMd5 [] wEmbed wMcf).saved = true →
      lookupState (pcRun wFetchP 5 [] wMd5 [] wEmbed wMcf).persisted
        "last_scrape_timestamp" = some 5) :=
  C2_amended_checkpoint_write_policy wFetchR ["a"] wFetchP 5 [] wMd5 [] wEmbed
    wMcf wMcf

/-- Witness for the amended C3 on a one-subreddit, one-item run. -/
theorem C3_amended_checkpoint_policy_witness :
    ((redditScan wFetchR 5 ["b"] []).1 = [] →
      (redditRun wFetchR ["b"] 5 [] wMd5 [] wEmbed wMcf).saved = false ∧
      (redditRun wFetchR ["b"] 5 [] wMd5 [] wEmbed wMcf).persisted = []) ∧
    ((redditScan wFetchR 5 ["b"] []).1 ≠ [] →
      ∀ s ∈ ["b"],
        lookupState (redditRun wFetchR ["b"] 5 [] wMd5 [] wEmbed wMcf).persisted
          s = some 5) ∧
    (wFetchP (lookupState [] "last_scrape_timestamp") = [] →
      (pcRun wFetchP 5 [] wMd5 [] wEmbed wMcf).saved = false ∧
      (pcRun wFetchP 5 [] wMd5 [] wEmbed wMcf).persisted = []) ∧
    (wFetchP (lookupState [] "last_scrape_timestamp") ≠ [] →
      lookupState (pcRun wFetchP 5 [] wMd5 [] wEmbed wMcf).persisted
        "last_scrape_timestamp" = some 5) :=
  C3_amended_empty_window_checkpoint_policy wFetchR ["b"] wFetchP 5 [] wMd5 []
    wEmbed wMcf wMcf

/-- Witness for C4: checkpoint key "a" holds 3 before a run with run-start
time 5; both scrapers end with a value at least 3. -/
theorem C4_checkpoint_monotone_witness :
    (lookupState [("a", 3)] "a" = some 3 ∧ (3 : ℚ) ≤ 5) ∧
    ((∃ v1, lookupState
        (redditRun wFetchR ["a"] 5 [("a", 3)] wMd5 [] wEmbed wMcf).persisted
          "a" = some v1 ∧ (3 : ℚ) ≤ v1) ∧
      (∃ v2, lookupState
        (pcRun wFetchP 5 [("a", 3)] wMd5 [] wEmbed wMcf).persisted
          "a" = some v2 ∧ (3 : ℚ) ≤ v2)) := by
  have h1 : lookupState [("a", 3)] "a" = some 3 := by simp [lookupState]
  have h2 : (3 : ℚ) ≤ 5 := by norm_num
  exact ⟨⟨h1, h2⟩, C4_checkpoint_never_regresses wFetchR ["a"] wFetchP 5
    [("a", 3)] wMd5 [] wEmbed wMcf wMcf "a" 3 h1 h2⟩

/-- C8 counterexample: calling the MCP server's `call_tool` with an unknown
tool name returns `{"error": ..., "tool": ..., "arguments": ...}` — an
object with no "status" key at all, refuting "every tool-style entry point
returns a result object of the shape {status: success|error, ...} with
errors as {status: error, error_message}". -/
theorem C8_call_tool_error_shape_counterexample :
    (call_tool (fun _ _ => Except.ok []) "bogus" []).lookup "status" = none ∧
    (call_tool (fun _ _ => Except.ok []) "bogus" []).lookup "error" =
      some (JVal.str "Unknown tool: bogus") := by
  constructor <;> rfl

/-- C8 amended: the entry points return result objects rather than raising —
`call_tool` catches every exception, returning the tool's own result on
success and the object `{error, tool, arguments}` (with no "status" key) on
any failure, while the digest agent's `index_pinecone` does return
`{status: "success"|"error", ...}` with `error_message` in the error case. -/
theorem C8_amended_entry_points_never_raise
    (impl : String → JObj → Except String JObj) (name : String) (args : JObj)
    (pn : String) (kws : Option (List String))
    (q : Except String (List PineMatch)) :
    (TOOL_NAMES.contains name = false →
      (call_tool impl name args).lookup "error" =
        some (JVal.str ("Unknown tool: " ++ name)) ∧
      (call_tool impl name args).lookup "status" = none) ∧
    (∀ r, TOOL_NAMES.contains name = true → impl name args = Except.ok r →
      call_tool impl name args = r) ∧
    (∀ e, TOOL_NAMES.contains name = true → impl name args = Except.error e →
      (call_tool impl name args).lookup "error" = some (JVal.str e) ∧
      (call_tool impl name args).lookup "status" = none) ∧
    ((index_pinecone pn kws q).lookup "status" = some (JVal.str "success") ∨
      ((index_pinecone pn kws q).lookup "status" = some (JVal.str "error") ∧
        ∃ m, (index_pinecone pn kws q).lookup "error_message" =
          some (JVal.str m))) := by
  refine ⟨?_, ?_, ?_, ?_⟩
  · intro h
    unfold call_tool
    rw [h]
    simp [List.lookup]
  · intro r hc himpl
    unfold call_tool
    rw [hc, himpl]
    rfl
  · intro e hc himpl
    unfold call_tool
    rw [hc, himpl]
    simp [List.lookup]
  · cases q with
    | error e =>
        right
        exact ⟨by simp [index_pinecone, List.lookup],
          ⟨"Error querying Pinecone: " ++ e,
            by simp [index_pinecone, List.lookup]⟩⟩
    | ok ms =>
        left
        simp [index_pinecone, List.lookup]

/-- Witness for the amended C8: a known tool whose implementation raises,
and a failing Pinecone query. -/
theorem C8_amended_never_raise_witness :
    (TOOL_NAMES.contains "search_sentiment" = false →
      (call_tool (fun _ _ => Except.error "boom") "search_sentiment" []).lookup
          "error" = some (JVal.str ("Unknown tool: " ++ "search_sentiment")) ∧
      (call_tool (fun _ _ => Except.error "boom") "search_sentiment" []).lookup
          "status" = none) ∧
    (∀ r, TOOL_NAMES.contains "search_sentiment" = true →
      (fun (_ : String) (_ : JObj) =>
        (Except.error "boom" : Except String JObj)) "search_sentiment" [] =
          Except.ok r →
      call_tool (fun _ _ => Except.error "boom") "search_sentiment" [] = r) ∧
    (∀ e, TOOL_NAMES.contains "search_sentiment" = true →
      (fun (_ : String) (_ : JObj) =>
        (Except.error "boom" : Except String JObj)) "search_sentiment" [] =
          Except.error e →
      (call_tool (fun _ _ => Except.error "boom") "search_sentiment" []).lookup
          "error" = some (JVal.str e) ∧
      (call_tool (fun _ _ => Except.error "boom") "search_sentiment" []).lookup
          "status" = none) ∧
    ((index_pinecone "Go5G" none
        (Except.error "down")).lookup "status" = some (JVal.str "success") ∨
      ((index_pinecone "Go5G" none
          (Except.error "down")).lookup "status" = some (JVal.str "error") ∧
        ∃ m, (index_pinecone "Go5G" none
            (Except.error "down")).lookup "error_message" =
          some (JVal.str m))) :=
  C8_amended_entry_points_never_raise (fun _ _ => Except.error "boom")
    "search_sentiment" [] "Go5G" none (Except.error "down")

end TTime
